import Mathlib

/-!
Shallow embedding of `src/main.js` (pix-express): a small HTTP service
registering, looking up and deleting PIX key records backed by a SQLite
table `pix_records` with a `UNIQUE(pix_type, pix_value)` constraint.

The persistent store is modelled as the list of `pix_records` rows in
insertion (rowid) order plus the next AUTOINCREMENT id.  Each route
handler becomes a pure function from the request data and the store to
an HTTP response and the resulting store.  Timestamps (`created_at`)
are not modelled; no claim mentions them.
-/

namespace PixExpress

/-- JS truthiness for a JSON field that is either absent (`undefined` /
`null`) or a string: absent and the empty string are falsy. -/
def truthy : Option String → Bool
  | none => false
  | some s => s ≠ ""

/-- `/^\d{11}$/.test phone` (main.js line 79): exactly 11 ASCII digits. -/
def validatePhone (phone : String) : Bool :=
  phone.data.length == 11 && phone.data.all Char.isDigit

/-- `/^\d{11}$/.test cpf` (main.js line 80): exactly 11 ASCII digits. -/
def validateCPF (cpf : String) : Bool :=
  cpf.data.length == 11 && cpf.data.all Char.isDigit

/-- `/^\d{14}$/.test cnpj` (main.js line 81): exactly 14 ASCII digits. -/
def validateCNPJ (cnpj : String) : Bool :=
  cnpj.data.length == 14 && cnpj.data.all Char.isDigit

/-- A character allowed inside the local and domain parts of the email
regex: anything but whitespace and the at sign (`[^\s@]`). -/
def emailChar (c : Char) : Bool :=
  !c.isWhitespace && c != '@'

/-- `/^[^\s@]+@[^\s@]+\.[^\s@]+$/.test email` (main.js line 78): exactly
one at sign, nonempty whitespace-free parts around it, and after the at
sign a dot that is neither its first nor its last character. -/
def validateEmail (email : String) : Bool :=
  match email.data.splitOn '@' with
  | [localPart, domainPart] =>
      !localPart.isEmpty && localPart.all (fun c => !c.isWhitespace) &&
      !domainPart.isEmpty && domainPart.all (fun c => !c.isWhitespace) &&
      ((domainPart.drop 1).dropLast.contains '.')
  | _ => false

/-- Hexadecimal digit, either case. -/
def isHexChar (c : Char) : Bool :=
  c.isDigit || ('a' ≤ c && c ≤ 'f') || ('A' ≤ c && c ≤ 'F')

/-- Modelled from the spec: `validateUUID` comes from the external
`uuid` npm package (`const { validate: validateUUID } = require('uuid')`,
main.js line 3), whose source is not part of this repository.  The spec
says "standard UUID syntax check (any RFC-4122 version)": 36 characters
in the 8-4-4-4-12 hyphenated hexadecimal layout. -/
def validateUUID (s : String) : Bool :=
  s.data.length == 36 &&
  (List.range 36).all (fun i =>
    let c := (s.data.getD i ' ')
    if i == 8 || i == 13 || i == 18 || i == 23 then c == '-' else isHexChar c)

/-- One row of the `pix_records` table (main.js lines 29-48),
`created_at` omitted. -/
structure PixRecord where
  id : Nat
  pix_type : String
  pix_value : String
  nome : String
  cpf : String
  banco : String
  agencia : String
  conta : String
deriving DecidableEq, Repr

/-- The `pix_records` table: rows in rowid order plus the next
AUTOINCREMENT id. -/
structure Store where
  records : List PixRecord
  nextId : Nat
deriving DecidableEq, Repr

def emptyStore : Store := ⟨[], 1⟩

/-- `SELECT 1 FROM pix_records WHERE pix_type = ? AND pix_value = ?`
as a Bool: does some row carry this (pix_type, pix_value) pair? -/
def hasPixPair (store : Store) (t v : String) : Bool :=
  store.records.any (fun r => r.pix_type == t && r.pix_value == v)

/-- The SQLite error message raised by the `UNIQUE(pix_type, pix_value)`
constraint. -/
def uniqueViolationMsg : String :=
  "UNIQUE constraint failed: pix_records.pix_type, pix_records.pix_value"

/-- Does `hay` start with `pat` (character lists)? -/
def startsWithChars : List Char → List Char → Bool
  | [], _ => true
  | _ :: _, [] => false
  | p :: ps, c :: cs => p == c && startsWithChars ps cs

/-- Does `pat` occur as a contiguous run inside `hay`? -/
def includesChars (pat : List Char) : List Char → Bool
  | [] => startsWithChars pat []
  | c :: t => startsWithChars pat (c :: t) || includesChars pat t

/-- JS `String.prototype.includes`: substring test. -/
def strIncludes (s pat : String) : Bool :=
  includesChars pat.data s.data

/-- `INSERT INTO pix_records ... VALUES (?, ?, ?, ?, ?, ?, ?)`
(main.js lines 197-203): the UNIQUE constraint rejects a duplicate
(pix_type, pix_value) pair with `uniqueViolationMsg`; otherwise the row
is appended with the next rowid, which is also reported back
(`this.lastID`). -/
def insertPixRecord (store : Store) (t v nome cpf banco agencia conta : String) :
    Except String (Nat × Store) :=
  if hasPixPair store t v then
    .error uniqueViolationMsg
  else
    .ok (store.nextId,
      ⟨store.records ++ [⟨store.nextId, t, v, nome, cpf, banco, agencia, conta⟩],
       store.nextId + 1⟩)

/-- `DELETE FROM pix_records WHERE pix_type = ? AND pix_value = ?`
(main.js line 232): removes every matching row and reports
`this.changes`, the number of rows removed. -/
def deletePixRecords (store : Store) (t v : String) : Nat × Store :=
  let remaining := store.records.filter (fun r => !(r.pix_type == t && r.pix_value == v))
  (store.records.length - remaining.length, ⟨remaining, store.nextId⟩)

/-- JSON response bodies produced by the handlers. -/
inductive RespBody where
  /-- Error body carrying the single `error` field. -/
  | error (msg : String)
  /-- GET /record 200 body: id, accountInfo, pixInfo (created_at omitted). -/
  | record (id : Nat) (nome cpf banco agencia conta : String) (pixType pixValue : String)
  /-- POST /register 201 body. -/
  | created (id : Nat) (nome cpf banco agencia conta : String) (pixType pixValue : String)
      (message : String)
  /-- DELETE /record 200 body. -/
  | deleted (message : String) (deletedCount : Nat)
deriving DecidableEq, Repr

structure HttpResponse where
  status : Nat
  body : RespBody
deriving DecidableEq, Repr

/-- `GET /record/:type/:value` (main.js lines 116-141).  `db.get`
returns the first matching row; the handler reshapes it, or answers 404
when there is none. -/
def lookupRecord (store : Store) (t v : String) : HttpResponse :=
  match store.records.find? (fun r => r.pix_type == t && r.pix_value == v) with
  | none => ⟨404, .error "Registro não encontrado"⟩
  | some row =>
      ⟨200, .record row.id row.nome row.cpf row.banco row.agencia row.conta
        row.pix_type row.pix_value⟩

/-- Request body `accountInfo` object; each field is a string or absent. -/
structure AccountInfoBody where
  nome : Option String
  cpf : Option String
  banco : Option String
  agencia : Option String
  conta : Option String
deriving DecidableEq, Repr

/-- Request body `pixInfo` object. -/
structure PixInfoBody where
  type : Option String
  value : Option String
deriving DecidableEq, Repr

/-- `POST /register` request body. -/
structure RegisterBody where
  accountInfo : Option AccountInfoBody
  pixInfo : Option PixInfoBody
deriving DecidableEq, Repr

/-- The `switch (type)` of main.js lines 172-190 computing `isValidPix`:
`none` encodes the `default:` branch (unrecognized type, early 400). -/
def pixValidate (t v : String) : Option Bool :=
  match t with
  | "email" => some (validateEmail v)
  | "phone" => some (validatePhone v)
  | "cpf" => some (validateCPF v)
  | "cnpj" => some (validateCNPJ v)
  | "uuid" => some (validateUUID v)
  | _ => none

/-- `POST /register` (main.js lines 144-219): the chain of early-return
validations, then the insert, mapping a UNIQUE-constraint failure to 409
and echoing the registered data on success. -/
def register (store : Store) (b : RegisterBody) : HttpResponse × Store :=
  match b.accountInfo, b.pixInfo with
  | none, _ =>
      (⟨400, .error "Estrutura de dados inválida. Use \x7baccountInfo: \x7b...\x7d, pixInfo: \x7b...\x7d\x7d"⟩, store)
  | some _, none =>
      (⟨400, .error "Estrutura de dados inválida. Use \x7baccountInfo: \x7b...\x7d, pixInfo: \x7b...\x7d\x7d"⟩, store)
  | some acc, some pix =>
      if !truthy acc.nome then (⟨400, .error "Nome é obrigatório"⟩, store)
      else if !truthy acc.cpf then (⟨400, .error "CPF é obrigatório"⟩, store)
      else if !truthy acc.banco then (⟨400, .error "Banco é obrigatório"⟩, store)
      else if !truthy acc.agencia then (⟨400, .error "Agência é obrigatória"⟩, store)
      else if !truthy acc.conta then (⟨400, .error "Conta é obrigatória"⟩, store)
      else if !truthy pix.type then (⟨400, .error "Tipo de chave PIX é obrigatório"⟩, store)
      else if !truthy pix.value then (⟨400, .error "Valor da chave PIX é obrigatório"⟩, store)
      else
        let nome := acc.nome.getD ""
        let cpf := acc.cpf.getD ""
        let banco := acc.banco.getD ""
        let agencia := acc.agencia.getD ""
        let conta := acc.conta.getD ""
        let t := pix.type.getD ""
        let v := pix.value.getD ""
        if !validateCPF cpf then
          (⟨400, .error "CPF do titular é inválido. Deve ter 11 dígitos."⟩, store)
        else
          match pixValidate t v with
          | none =>
              (⟨400, .error "Tipo de chave PIX inválido. Use: email, phone, cpf, cnpj, uuid"⟩, store)
          | some false =>
              (⟨400, .error ("Valor da chave PIX (" ++ t ++ ") é inválido")⟩, store)
          | some true =>
              match insertPixRecord store t v nome cpf banco agencia conta with
              | .error msg =>
                  if strIncludes msg "UNIQUE constraint failed" then
                    (⟨409, .error ("Chave PIX (" ++ t ++ ") já registrada")⟩, store)
                  else
                    (⟨500, .error msg⟩, store)
              | .ok (newId, store2) =>
                  (⟨201, .created newId nome cpf banco agencia conta t v
                      "Registro criado com sucesso"⟩, store2)

/-- `const validTypes = ['email', 'phone', 'cpf', 'cnpj', 'uuid']`
(main.js line 226). -/
def validTypes : List String := ["email", "phone", "cpf", "cnpj", "uuid"]

/-- `DELETE /record/:type/:value` (main.js lines 222-248): type guard,
then the delete, branching on `this.changes`. -/
def deleteRecord (store : Store) (t v : String) : HttpResponse × Store :=
  if !validTypes.contains t then
    (⟨400, .error "Tipo de chave PIX inválido"⟩, store)
  else
    let res := deletePixRecords store t v
    if res.1 == 0 then
      (⟨404, .error "Registro não encontrado"⟩, res.2)
    else
      (⟨200, .deleted "Registro excluído com sucesso" res.1⟩, res.2)

/-- A store-mutating operation of the service: registration or deletion
(lookup does not write). -/
inductive Op where
  | reg (b : RegisterBody)
  | del (t v : String)
deriving Repr

/-- Apply one operation to the store, keeping the resulting state. -/
def applyOp (store : Store) : Op → Store
  | .reg b => (register store b).2
  | .del t v => (deleteRecord store t v).2

/-- Run a sequence of operations from the empty store. -/
def runOps (ops : List Op) : Store :=
  ops.foldl applyOp emptyStore

/-- The (pix_type, pix_value) uniqueness invariant of the
`pix_records` table. -/
def uniquePairs (store : Store) : Prop :=
  store.records.Pairwise
    (fun r1 r2 => ¬(r1.pix_type = r2.pix_type ∧ r1.pix_value = r2.pix_value))

/-- Observable events of the bootstrap sequence (main.js lines 17-73),
in the order `db.serialize` issues them. -/
inductive BootEvent where
  | createBanksTable
  | createPixRecordsTable
  | seedDefaultBank (apiKey : String)
  | processExit (code : Nat)
deriving DecidableEq, Repr

/-- Bootstrap (main.js lines 17-73): both CREATE TABLE statements are
issued, then `X_API_KEY` is read from the environment; a falsy value
triggers `process.exit(1)`, otherwise the default bank row is seeded
idempotently. -/
def bootstrap (envXApiKey : Option String) : List BootEvent :=
  [.createBanksTable, .createPixRecordsTable] ++
    (if !truthy envXApiKey then
      [.processExit 1]
    else
      [.seedDefaultBank (envXApiKey.getD "")])

/-- Is a bootstrap event one of the schema-creation statements? -/
def isSchemaCreation : BootEvent → Bool
  | .createBanksTable => true
  | .createPixRecordsTable => true
  | _ => false

/-- Is a bootstrap event a process termination? -/
def isExit : BootEvent → Bool
  | .processExit _ => true
  | _ => false

/-- A concrete store holding one phone record, used by witnesses. -/
def store1 : Store :=
  ⟨[⟨1, "phone", "11987654321", "A", "12345678901", "B", "1", "2"⟩], 2⟩

/-- The 400 body for a malformed request structure. -/
def structureErrorMsg : String :=
  "Estrutura de dados inválida. Use \x7baccountInfo: \x7b...\x7d, pixInfo: \x7b...\x7d\x7d"

/-- The registration validation sequence as claim C5 states it: the
ordered list of (this check fails?, its 400 message) pairs — presence
of accountInfo and pixInfo; presence of nome, cpf, banco, agencia,
conta, type, value in that order; validateCPF on the account cpf;
type-dispatched validation of value, an unrecognized type listing the
valid types. -/
def c5Checks (b : RegisterBody) : List (Bool × String) :=
  match b.accountInfo, b.pixInfo with
  | some acc, some pix =>
      [ (false, structureErrorMsg),
        (!truthy acc.nome, "Nome é obrigatório"),
        (!truthy acc.cpf, "CPF é obrigatório"),
        (!truthy acc.banco, "Banco é obrigatório"),
        (!truthy acc.agencia, "Agência é obrigatória"),
        (!truthy acc.conta, "Conta é obrigatória"),
        (!truthy pix.type, "Tipo de chave PIX é obrigatório"),
        (!truthy pix.value, "Valor da chave PIX é obrigatório"),
        (!validateCPF (acc.cpf.getD ""), "CPF do titular é inválido. Deve ter 11 dígitos."),
        ((pixValidate (pix.type.getD "") (pix.value.getD "")).isNone,
          "Tipo de chave PIX inválido. Use: email, phone, cpf, cnpj, uuid"),
        (pixValidate (pix.type.getD "") (pix.value.getD "") == some false,
          "Valor da chave PIX (" ++ pix.type.getD "" ++ ") é inválido") ]
  | _, _ => [(true, structureErrorMsg)]

/-- Message of the first failing check of claim C5's sequence, `none`
when every check passes. -/
def firstValidationFailure (b : RegisterBody) : Option String :=
  (List.find? (fun c => c.1) (c5Checks b)).map (fun c => c.2)

/-- The 400 messages of claim C5's validation sequence, in order. -/
def c5Messages (b : RegisterBody) : List String :=
  (c5Checks b).map (fun c => c.2)

/-!  Theorems settling the claims.  -/

/-- Rows surviving a `DELETE ... WHERE` never match the WHERE predicate
again. -/
theorem find?_filter_not (l : List PixRecord) (p : PixRecord → Bool) :
    (l.filter (fun r => !p r)).find? p = none := by
  rw [List.find?_eq_none]
  intro x hx
  have hx2 := (List.mem_filter.mp hx).2
  simp only [Bool.not_eq_true'] at hx2
  simp [hx2]

/-- Splitting a list's length into the rows a predicate rejects and the
rows it accepts. -/
theorem length_filter_not_add_countP (l : List PixRecord) (p : PixRecord → Bool) :
    (l.filter (fun r => !p r)).length + l.countP p = l.length := by
  induction l with
  | nil => simp
  | cons a t ih =>
    by_cases hp : p a = true
    · simp [List.filter_cons, List.countP_cons, hp]
      omega
    · have hp' : p a = false := by simpa using hp
      simp [List.filter_cons, List.countP_cons, hp']
      omega

/-- A list pairwise free of double matches has at most one match. -/
theorem countP_le_one_of_pairwise {α : Type} (p : α → Bool) (l : List α)
    (h : l.Pairwise (fun a b => ¬(p a = true ∧ p b = true))) :
    l.countP p ≤ 1 := by
  induction l with
  | nil => simp
  | cons a t ih =>
    rw [List.pairwise_cons] at h
    obtain ⟨ha, ht⟩ := h
    by_cases hp : p a = true
    · have hzero : t.countP p = 0 := by
        rw [List.countP_eq_zero]
        intro b hb hbp
        exact ha b hb ⟨hp, hbp⟩
      simp [List.countP_cons, hp, hzero]
    · have hp' : p a = false := by simpa using hp
      simp only [List.countP_cons, hp', if_false]
      simpa using ih ht

/-- The SQLite message of the UNIQUE(pix_type, pix_value) violation
contains the pattern `POST /register` greps for. -/
theorem strIncludes_unique_violation :
    strIncludes uniqueViolationMsg "UNIQUE constraint failed" = true := by decide

/-- Searching an appended list when the first part has no match. -/
theorem find?_append_of_none {α : Type} (p : α → Bool) (l1 l2 : List α)
    (h : l1.find? p = none) : (l1 ++ l2).find? p = l2.find? p := by
  induction l1 with
  | nil => simp
  | cons a l ih =>
    by_cases hpa : p a = true
    · rw [List.find?_cons_of_pos _ hpa] at h
      simp at h
    · rw [List.cons_append, List.find?_cons_of_neg _ hpa]
      rw [List.find?_cons_of_neg _ hpa] at h
      exact ih h

/-- A registration that answers 201 passed every check, found the
(type, value) pair absent, and appended exactly one row carrying the
request's values and the next id, echoing them in the response. -/
theorem register_201_shape (store : Store) (b : RegisterBody)
    (h201 : (register store b).1.status = 201) :
    ∃ acc pix, b.accountInfo = some acc ∧ b.pixInfo = some pix ∧
      hasPixPair store (pix.type.getD "") (pix.value.getD "") = false ∧
      register store b =
        (⟨201, RespBody.created store.nextId (acc.nome.getD "") (acc.cpf.getD "")
            (acc.banco.getD "") (acc.agencia.getD "") (acc.conta.getD "")
            (pix.type.getD "") (pix.value.getD "") "Registro criado com sucesso"⟩,
         ⟨store.records ++
            [⟨store.nextId, pix.type.getD "", pix.value.getD "", acc.nome.getD "",
              acc.cpf.getD "", acc.banco.getD "", acc.agencia.getD "",
              acc.conta.getD ""⟩],
          store.nextId + 1⟩) := by
  obtain ⟨ai, pi⟩ := b
  cases ai with
  | none => simp [register] at h201
  | some acc =>
  cases pi with
  | none => simp [register] at h201
  | some pix =>
  by_cases h1 : truthy acc.nome = true
  case neg => simp [register, Bool.eq_false_iff.mpr h1] at h201
  by_cases h2 : truthy acc.cpf = true
  case neg => simp [register, h1, Bool.eq_false_iff.mpr h2] at h201
  by_cases h3 : truthy acc.banco = true
  case neg => simp [register, h1, h2, Bool.eq_false_iff.mpr h3] at h201
  by_cases h4 : truthy acc.agencia = true
  case neg => simp [register, h1, h2, h3, Bool.eq_false_iff.mpr h4] at h201
  by_cases h5 : truthy acc.conta = true
  case neg => simp [register, h1, h2, h3, h4, Bool.eq_false_iff.mpr h5] at h201
  by_cases h6 : truthy pix.type = true
  case neg => simp [register, h1, h2, h3, h4, h5, Bool.eq_false_iff.mpr h6] at h201
  by_cases h7 : truthy pix.value = true
  case neg => simp [register, h1, h2, h3, h4, h5, h6, Bool.eq_false_iff.mpr h7] at h201
  by_cases h8 : validateCPF (acc.cpf.getD "") = true
  case neg =>
    simp [register, h1, h2, h3, h4, h5, h6, h7, Bool.eq_false_iff.mpr h8] at h201
  cases hpv : pixValidate (pix.type.getD "") (pix.value.getD "") with
  | none => simp [register, h1, h2, h3, h4, h5, h6, h7, h8, hpv] at h201
  | some bb =>
  cases bb with
  | false => simp [register, h1, h2, h3, h4, h5, h6, h7, h8, hpv] at h201
  | true =>
  cases hhas : hasPixPair store (pix.type.getD "") (pix.value.getD "") with
  | true =>
    simp [register, h1, h2, h3, h4, h5, h6, h7, h8, hpv, insertPixRecord, hhas,
      strIncludes_unique_violation] at h201
  | false =>
    refine ⟨acc, pix, rfl, rfl, hhas, ?_⟩
    simp [register, h1, h2, h3, h4, h5, h6, h7, h8, hpv, insertPixRecord, hhas]

/-- Registration either leaves the store untouched (any validation or
constraint failure) or appends exactly one row whose (type, value) pair
was absent. -/
theorem register_snd_cases (store : Store) (b : RegisterBody) :
    (register store b).2 = store ∨
    ∃ t v nome cpf banco agencia conta,
      hasPixPair store t v = false ∧
      (register store b).2 =
        ⟨store.records ++ [⟨store.nextId, t, v, nome, cpf, banco, agencia, conta⟩],
         store.nextId + 1⟩ := by
  by_cases h201 : (register store b).1.status = 201
  · obtain ⟨acc, pix, _, _, hhas, heq⟩ := register_201_shape store b h201
    right
    exact ⟨_, _, _, _, _, _, _, hhas, by rw [heq]⟩
  · left
    obtain ⟨ai, pi⟩ := b
    cases ai with
    | none => rfl
    | some acc =>
    cases pi with
    | none => rfl
    | some pix =>
    by_cases h1 : truthy acc.nome = true
    case neg => simp [register, Bool.eq_false_iff.mpr h1]
    by_cases h2 : truthy acc.cpf = true
    case neg => simp [register, h1, Bool.eq_false_iff.mpr h2]
    by_cases h3 : truthy acc.banco = true
    case neg => simp [register, h1, h2, Bool.eq_false_iff.mpr h3]
    by_cases h4 : truthy acc.agencia = true
    case neg => simp [register, h1, h2, h3, Bool.eq_false_iff.mpr h4]
    by_cases h5 : truthy acc.conta = true
    case neg => simp [register, h1, h2, h3, h4, Bool.eq_false_iff.mpr h5]
    by_cases h6 : truthy pix.type = true
    case neg => simp [register, h1, h2, h3, h4, h5, Bool.eq_false_iff.mpr h6]
    by_cases h7 : truthy pix.value = true
    case neg => simp [register, h1, h2, h3, h4, h5, h6, Bool.eq_false_iff.mpr h7]
    by_cases h8 : validateCPF (acc.cpf.getD "") = true
    case neg =>
      simp [register, h1, h2, h3, h4, h5, h6, h7, Bool.eq_false_iff.mpr h8]
    cases hpv : pixValidate (pix.type.getD "") (pix.value.getD "") with
    | none => simp [register, h1, h2, h3, h4, h5, h6, h7, h8, hpv]
    | some bb =>
    cases bb with
    | false => simp [register, h1, h2, h3, h4, h5, h6, h7, h8, hpv]
    | true =>
    cases hhas : hasPixPair store (pix.type.getD "") (pix.value.getD "") with
    | true =>
      simp [register, h1, h2, h3, h4, h5, h6, h7, h8, hpv, insertPixRecord, hhas,
        strIncludes_unique_violation]
    | false =>
      exact absurd (by
        simp [register, h1, h2, h3, h4, h5, h6, h7, h8, hpv, insertPixRecord, hhas])
        h201

/-- Registration preserves the (pix_type, pix_value) uniqueness
invariant. -/
theorem uniquePairs_register (store : Store) (b : RegisterBody)
    (h : uniquePairs store) : uniquePairs (register store b).2 := by
  rcases register_snd_cases store b with h2 | ⟨t, v, nome, cpf, banco, agencia, conta, hfresh, h2⟩
  · rw [h2]; exact h
  · rw [h2]
    unfold uniquePairs at h ⊢
    rw [List.pairwise_append]
    refine ⟨h, List.pairwise_singleton _ _, ?_⟩
    intro r hr r2 hr2
    simp only [List.mem_singleton] at hr2
    subst hr2
    intro hpair
    have hmatch : store.records.any (fun rr => rr.pix_type == t && rr.pix_value == v) = true := by
      rw [List.any_eq_true]
      exact ⟨r, hr, by simp [hpair.1, hpair.2]⟩
    rw [hasPixPair] at hfresh
    rw [hmatch] at hfresh
    exact absurd hfresh (by simp)

/-- Deletion preserves the (pix_type, pix_value) uniqueness
invariant. -/
theorem uniquePairs_delete (store : Store) (t v : String)
    (h : uniquePairs store) : uniquePairs (deleteRecord store t v).2 := by
  unfold deleteRecord
  split
  · exact h
  · simp only []
    split
    · exact List.Pairwise.filter _ h
    · exact List.Pairwise.filter _ h

/-- C7: `validateCPF` accepts exactly the strings of exactly 11 ASCII
digits; in particular the 10-digit string "1234567890" is rejected and
the 11-digit string "12345678901" is accepted.  As a Lean function it
is pure and total by construction. -/
theorem C7_validateCPF_spec :
    (∀ s : String, validateCPF s = true ↔
        (s.data.length = 11 ∧ ∀ c ∈ s.data, c.isDigit = true)) ∧
    validateCPF "1234567890" = false ∧
    validateCPF "12345678901" = true := by
  refine ⟨fun s => ?_, by decide, by decide⟩
  simp [validateCPF, List.all_eq_true]

/-- C10: `validatePhone` and `validateCPF` embed the same regex
`/^\d{11}$/` and are extensionally equal. -/
theorem C10_validatePhone_eq_validateCPF :
    ∀ s : String, validatePhone s = validateCPF s :=
  fun _ => rfl

/-- C8: deleting with a type outside the five recognized ones answers
400 with the fixed error body, leaves the store unchanged, and the
response does not depend on the store (no store access). -/
theorem C8_delete_unrecognized_type (store : Store) (t v : String)
    (ht : validTypes.contains t = false) :
    deleteRecord store t v = (⟨400, RespBody.error "Tipo de chave PIX inválido"⟩, store) ∧
    ∀ store2 : Store, (deleteRecord store2 t v).1 = (deleteRecord store t v).1 := by
  have hmem : t ∉ validTypes := by simpa using ht
  constructor
  · simp [deleteRecord, hmem]
  · intro store2
    simp [deleteRecord, hmem]

/-- C8 witness: deleting with type "bitcoin" on the empty store. -/
theorem C8_witness :
    deleteRecord emptyStore "bitcoin" "x"
      = (⟨400, RespBody.error "Tipo de chave PIX inválido"⟩, emptyStore) :=
  (C8_delete_unrecognized_type emptyStore "bitcoin" "x" (by decide)).1

/-- C9 counterexample: with `X_API_KEY` absent, the bootstrap issues
both CREATE TABLE statements before the `process.exit(1)` event, so
schema creation does occur before termination, contrary to the claim's
"no partial startup". -/
theorem C9_counterexample :
    bootstrap none
      = [BootEvent.createBanksTable, BootEvent.createPixRecordsTable,
         BootEvent.processExit 1] ∧
    ((bootstrap none).takeWhile (fun e => !isExit e)).any isSchemaCreation = true := by
  constructor
  · rfl
  · decide

/-- C9 amended: with `X_API_KEY` absent or empty, the bootstrap
terminates with exit code 1 (non-zero) and never seeds the default
bank, but only after both schema-creation statements have been
issued. -/
theorem C9_bootstrap_missing_key (env : Option String) (h : truthy env = false) :
    bootstrap env
      = [BootEvent.createBanksTable, BootEvent.createPixRecordsTable,
         BootEvent.processExit 1] ∧
    (∀ k : String, BootEvent.seedDefaultBank k ∉ bootstrap env) := by
  constructor
  · simp [bootstrap, h]
  · intro k
    simp [bootstrap, h]

/-- C9 witness: the amended statement at the concrete environment with
`X_API_KEY` unset. -/
theorem C9_witness :
    bootstrap none
      = [BootEvent.createBanksTable, BootEvent.createPixRecordsTable,
         BootEvent.processExit 1] :=
  (C9_bootstrap_missing_key none rfl).1

/-- C3: a registration that passes every validation check but targets a
(pix_type, pix_value) pair already present answers 409 Conflict with
the fixed Portuguese body and leaves the store unchanged. -/
theorem C3_duplicate_registration (store : Store)
    (nome cpf banco agencia conta t v : String)
    (hnome : nome ≠ "") (hcpf : cpf ≠ "") (hbanco : banco ≠ "")
    (hagencia : agencia ≠ "") (hconta : conta ≠ "")
    (ht : t ≠ "") (hv : v ≠ "")
    (hvalcpf : validateCPF cpf = true)
    (hvalpix : pixValidate t v = some true)
    (hdup : hasPixPair store t v = true) :
    register store
        ⟨some ⟨some nome, some cpf, some banco, some agencia, some conta⟩,
         some ⟨some t, some v⟩⟩
      = (⟨409, RespBody.error ("Chave PIX (" ++ t ++ ") já registrada")⟩, store) := by
  simp [register, truthy, hnome, hcpf, hbanco, hagencia, hconta, ht, hv, hvalcpf,
    hvalpix, insertPixRecord, hdup, strIncludes_unique_violation]

/-- C3 witness: registering the pair already held by `store1`. -/
theorem C3_witness :
    register store1
        ⟨some ⟨some "A", some "12345678901", some "B", some "1", some "2"⟩,
         some ⟨some "phone", some "11987654321"⟩⟩
      = (⟨409, RespBody.error ("Chave PIX (" ++ "phone" ++ ") já registrada")⟩, store1) :=
  C3_duplicate_registration store1 "A" "12345678901" "B" "1" "2" "phone" "11987654321"
    (by decide) (by decide) (by decide) (by decide) (by decide) (by decide) (by decide)
    (by decide) (by decide) (by decide)

/-- C4: a deletion that answers 200 leaves a store in which looking up
the same (type, value) answers 404 with the fixed body. -/
theorem C4_delete_then_lookup (store st2 : Store) (t v : String) (resp : HttpResponse)
    (hdel : deleteRecord store t v = (resp, st2)) (h200 : resp.status = 200) :
    lookupRecord st2 t v = ⟨404, RespBody.error "Registro não encontrado"⟩ := by
  unfold deleteRecord at hdel
  split at hdel
  · injection hdel with h1 h2
    subst h1
    simp at h200
  · simp only [] at hdel
    split at hdel
    · injection hdel with h1 h2
      subst h1
      simp at h200
    · injection hdel with h1 h2
      subst h2
      have h := find?_filter_not store.records
        (fun r => r.pix_type == t && r.pix_value == v)
      have hrec : ((deletePixRecords store t v).2).records
          = store.records.filter (fun r => !(r.pix_type == t && r.pix_value == v)) := rfl
      unfold lookupRecord
      rw [hrec, h]

/-- C4 witness: deleting the single record of `store1` and looking it
up again. -/
theorem C4_witness :
    lookupRecord (deleteRecord store1 "phone" "11987654321").2 "phone" "11987654321"
      = ⟨404, RespBody.error "Registro não encontrado"⟩ :=
  C4_delete_then_lookup store1 (deleteRecord store1 "phone" "11987654321").2
    "phone" "11987654321" (deleteRecord store1 "phone" "11987654321").1 rfl rfl

/-- C6: on a store satisfying the uniqueness invariant, deleting a
recognized (type, value) pair that is present answers 200 with the
fixed message and `deletedCount = 1`. -/
theorem C6_delete_present_returns_one (store : Store) (t v : String)
    (hinv : uniquePairs store) (ht : validTypes.contains t = true)
    (hpair : hasPixPair store t v = true) :
    (deleteRecord store t v).1
      = ⟨200, RespBody.deleted "Registro excluído com sucesso" 1⟩ := by
  have hmem : t ∈ validTypes := by simpa using ht
  have hpw : store.records.Pairwise
      (fun a b => ¬((fun r => r.pix_type == t && r.pix_value == v) a = true ∧
        (fun r => r.pix_type == t && r.pix_value == v) b = true)) := by
    refine hinv.imp ?_
    intro a b hab hmatch
    obtain ⟨hpa, hpb⟩ := hmatch
    simp only [Bool.and_eq_true, beq_iff_eq] at hpa hpb
    exact hab ⟨hpa.1.trans hpb.1.symm, hpa.2.trans hpb.2.symm⟩
  have hle : store.records.countP (fun r => r.pix_type == t && r.pix_value == v) ≤ 1 :=
    countP_le_one_of_pairwise _ _ hpw
  have hpos : 0 < store.records.countP (fun r => r.pix_type == t && r.pix_value == v) := by
    rw [List.countP_pos_iff]
    simpa [hasPixPair, List.any_eq_true] using hpair
  have hcount : store.records.countP (fun r => r.pix_type == t && r.pix_value == v) = 1 := by
    omega
  have hchanges : (deletePixRecords store t v).1 = 1 := by
    have hadd := length_filter_not_add_countP store.records
      (fun r => r.pix_type == t && r.pix_value == v)
    simp only [deletePixRecords]
    omega
  simp [deleteRecord, hmem, hchanges]

/-- C6 witness: deleting the record of `store1`. -/
theorem C6_witness :
    (deleteRecord store1 "phone" "11987654321").1
      = ⟨200, RespBody.deleted "Registro excluído com sucesso" 1⟩ :=
  C6_delete_present_returns_one store1 "phone" "11987654321"
    (by simp [uniquePairs, store1]) (by decide) (by decide)

/-- C1: every store reachable from the empty store by any sequence of
registration and deletion operations keeps the (pix_type, pix_value)
pair unique across all rows. -/
theorem C1_unique_pairs_invariant : ∀ ops : List Op, uniquePairs (runOps ops) := by
  have haux : ∀ (ops : List Op) (store : Store),
      uniquePairs store → uniquePairs (ops.foldl applyOp store) := by
    intro ops
    induction ops with
    | nil => intro store h; exact h
    | cons op rest ih =>
      intro store h
      rw [List.foldl_cons]
      apply ih
      cases op with
      | reg b => exact uniquePairs_register store b h
      | del t v => exact uniquePairs_delete store t v h
  intro ops
  exact haux ops emptyStore (by simp [uniquePairs, emptyStore])

/-- C2: for a recognized type and a value its validator accepts, a
registration that answers 201 leaves a store in which looking up the
same (type, value) answers 200 with the registered accountInfo and
pixInfo values. -/
theorem C2_register_then_lookup (store : Store)
    (nome cpf banco agencia conta t v : String)
    (ht : validTypes.contains t = true)
    (hv : pixValidate t v = some true)
    (h201 : (register store
        ⟨some ⟨some nome, some cpf, some banco, some agencia, some conta⟩,
         some ⟨some t, some v⟩⟩).1.status = 201) :
    ∃ id, lookupRecord (register store
        ⟨some ⟨some nome, some cpf, some banco, some agencia, some conta⟩,
         some ⟨some t, some v⟩⟩).2 t v
      = ⟨200, RespBody.record id nome cpf banco agencia conta t v⟩ := by
  obtain ⟨acc, pix, hacc, hpix, hfresh, heq⟩ := register_201_shape store _ h201
  injection hacc with hacc
  injection hpix with hpix
  subst hacc hpix
  simp only [Option.getD_some] at hfresh heq
  rw [heq]
  refine ⟨store.nextId, ?_⟩
  have hnone : store.records.find? (fun r => r.pix_type == t && r.pix_value == v) = none := by
    rw [List.find?_eq_none]
    intro x hx hpx
    have hmatch : store.records.any (fun r => r.pix_type == t && r.pix_value == v) = true :=
      List.any_eq_true.mpr ⟨x, hx, hpx⟩
    rw [hasPixPair, hmatch] at hfresh
    exact absurd hfresh (by simp)
  simp [lookupRecord, hnone]

/-- C2 witness: registering a phone record on the empty store, then
looking it up. -/
theorem C2_witness :
    ∃ id, lookupRecord (register emptyStore
        ⟨some ⟨some "A", some "12345678901", some "B", some "1", some "2"⟩,
         some ⟨some "phone", some "11987654321"⟩⟩).2 "phone" "11987654321"
      = ⟨200, RespBody.record id "A" "12345678901" "B" "1" "2" "phone" "11987654321"⟩ :=
  C2_register_then_lookup emptyStore "A" "12345678901" "B" "1" "2" "phone" "11987654321"
    (by decide) (by decide) (by decide)

/-- First character of the dynamic invalid-value message. -/
theorem valor_dyn_get0 (t : String) :
    ("Valor da chave PIX (" ++ t ++ ") é inválido").data.get? 0 = some 'V' := rfl

/-- Character 19 of the dynamic invalid-value message is the opening
parenthesis, whatever the type string. -/
theorem valor_dyn_get19 (t : String) :
    ("Valor da chave PIX (" ++ t ++ ") é inválido").data.get? 19 = some '(' := rfl

/-- A string not starting with 'V' differs from the dynamic
invalid-value message. -/
theorem valor_dyn_ne_of_get0 (t m : String) (hm : m.data.get? 0 ≠ some 'V') :
    "Valor da chave PIX (" ++ t ++ ") é inválido" ≠ m :=
  fun he => hm (he ▸ valor_dyn_get0 t)

/-- The dynamic invalid-value message differs from the missing-value
message, which shares its first 19 characters. -/
theorem valor_dyn_ne_valor_required (t : String) :
    "Valor da chave PIX (" ++ t ++ ") é inválido" ≠ "Valor da chave PIX é obrigatório" :=
  fun he => absurd (he ▸ valor_dyn_get19 t) (by decide)

/-- C5: registration validation follows claim C5's fixed order — the
handler answers 400 with the message of the first failing check and
leaves every store unchanged (no store access), the eleven messages are
pairwise distinct, and when every check passes the handler reaches the
store (answering 201 or 409). -/
theorem C5_validation_order :
    (∀ (b : RegisterBody) (msg : String), firstValidationFailure b = some msg →
        ∀ store : Store, register store b = (⟨400, RespBody.error msg⟩, store)) ∧
    (∀ b : RegisterBody, firstValidationFailure b = none →
        ∀ store : Store,
          (register store b).1.status = 201 ∨ (register store b).1.status = 409) ∧
    (∀ b : RegisterBody, (c5Messages b).Nodup) := by
  refine ⟨?_, ?_, ?_⟩
  · intro b msg hmsg store
    obtain ⟨ai, pi⟩ := b
    cases ai with
    | none =>
      simp [firstValidationFailure, c5Checks] at hmsg
      subst hmsg
      simp [register, structureErrorMsg]
    | some acc =>
    cases pi with
    | none =>
      simp [firstValidationFailure, c5Checks] at hmsg
      subst hmsg
      simp [register, structureErrorMsg]
    | some pix =>
    by_cases h1 : truthy acc.nome = true
    case neg =>
      simp [firstValidationFailure, c5Checks, Bool.eq_false_iff.mpr h1] at hmsg
      subst hmsg
      simp [register, Bool.eq_false_iff.mpr h1]
    by_cases h2 : truthy acc.cpf = true
    case neg =>
      simp [firstValidationFailure, c5Checks, h1, Bool.eq_false_iff.mpr h2] at hmsg
      subst hmsg
      simp [register, h1, Bool.eq_false_iff.mpr h2]
    by_cases h3 : truthy acc.banco = true
    case neg =>
      simp [firstValidationFailure, c5Checks, h1, h2, Bool.eq_false_iff.mpr h3] at hmsg
      subst hmsg
      simp [register, h1, h2, Bool.eq_false_iff.mpr h3]
    by_cases h4 : truthy acc.agencia = true
    case neg =>
      simp [firstValidationFailure, c5Checks, h1, h2, h3, Bool.eq_false_iff.mpr h4] at hmsg
      subst hmsg
      simp [register, h1, h2, h3, Bool.eq_false_iff.mpr h4]
    by_cases h5 : truthy acc.conta = true
    case neg =>
      simp [firstValidationFailure, c5Checks, h1, h2, h3, h4, Bool.eq_false_iff.mpr h5] at hmsg
      subst hmsg
      simp [register, h1, h2, h3, h4, Bool.eq_false_iff.mpr h5]
    by_cases h6 : truthy pix.type = true
    case neg =>
      simp [firstValidationFailure, c5Checks, h1, h2, h3, h4, h5,
        Bool.eq_false_iff.mpr h6] at hmsg
      subst hmsg
      simp [register, h1, h2, h3, h4, h5, Bool.eq_false_iff.mpr h6]
    by_cases h7 : truthy pix.value = true
    case neg =>
      simp [firstValidationFailure, c5Checks, h1, h2, h3, h4, h5, h6,
        Bool.eq_false_iff.mpr h7] at hmsg
      subst hmsg
      simp [register, h1, h2, h3, h4, h5, h6, Bool.eq_false_iff.mpr h7]
    by_cases h8 : validateCPF (acc.cpf.getD "") = true
    case neg =>
      simp [firstValidationFailure, c5Checks, h1, h2, h3, h4, h5, h6, h7,
        Bool.eq_false_iff.mpr h8] at hmsg
      subst hmsg
      simp [register, h1, h2, h3, h4, h5, h6, h7, Bool.eq_false_iff.mpr h8]
    cases hpv : pixValidate (pix.type.getD "") (pix.value.getD "") with
    | none =>
      simp [firstValidationFailure, c5Checks, h1, h2, h3, h4, h5, h6, h7, h8, hpv] at hmsg
      subst hmsg
      simp [register, h1, h2, h3, h4, h5, h6, h7, h8, hpv]
    | some bb =>
    cases bb with
    | false =>
      simp [firstValidationFailure, c5Checks, h1, h2, h3, h4, h5, h6, h7, h8, hpv] at hmsg
      subst hmsg
      simp [register, h1, h2, h3, h4, h5, h6, h7, h8, hpv]
    | true =>
      simp [firstValidationFailure, c5Checks, h1, h2, h3, h4, h5, h6, h7, h8, hpv] at hmsg
  · intro b hnone store
    obtain ⟨ai, pi⟩ := b
    cases ai with
    | none => simp [firstValidationFailure, c5Checks] at hnone
    | some acc =>
    cases pi with
    | none => simp [firstValidationFailure, c5Checks] at hnone
    | some pix =>
    by_cases h1 : truthy acc.nome = true
    case neg =>
      simp [firstValidationFailure, c5Checks, Bool.eq_false_iff.mpr h1] at hnone
    by_cases h2 : truthy acc.cpf = true
    case neg =>
      simp [firstValidationFailure, c5Checks, h1, Bool.eq_false_iff.mpr h2] at hnone
    by_cases h3 : truthy acc.banco = true
    case neg =>
      simp [firstValidationFailure, c5Checks, h1, h2, Bool.eq_false_iff.mpr h3] at hnone
    by_cases h4 : truthy acc.agencia = true
    case neg =>
      simp [firstValidationFailure, c5Checks, h1, h2, h3, Bool.eq_false_iff.mpr h4] at hnone
    by_cases h5 : truthy acc.conta = true
    case neg =>
      simp [firstValidationFailure, c5Checks, h1, h2, h3, h4, Bool.eq_false_iff.mpr h5] at hnone
    by_cases h6 : truthy pix.type = true
    case neg =>
      simp [firstValidationFailure, c5Checks, h1, h2, h3, h4, h5,
        Bool.eq_false_iff.mpr h6] at hnone
    by_cases h7 : truthy pix.value = true
    case neg =>
      simp [firstValidationFailure, c5Checks, h1, h2, h3, h4, h5, h6,
        Bool.eq_false_iff.mpr h7] at hnone
    by_cases h8 : validateCPF (acc.cpf.getD "") = true
    case neg =>
      simp [firstValidationFailure, c5Checks, h1, h2, h3, h4, h5, h6, h7,
        Bool.eq_false_iff.mpr h8] at hnone
    cases hpv : pixValidate (pix.type.getD "") (pix.value.getD "") with
    | none =>
      simp [firstValidationFailure, c5Checks, h1, h2, h3, h4, h5, h6, h7, h8, hpv] at hnone
    | some bb =>
    cases bb with
    | false =>
      simp [firstValidationFailure, c5Checks, h1, h2, h3, h4, h5, h6, h7, h8, hpv] at hnone
    | true =>
      cases hhas : hasPixPair store (pix.type.getD "") (pix.value.getD "") with
      | true =>
        right
        simp [register, h1, h2, h3, h4, h5, h6, h7, h8, hpv, insertPixRecord, hhas,
          strIncludes_unique_violation]
      | false =>
        left
        simp [register, h1, h2, h3, h4, h5, h6, h7, h8, hpv, insertPixRecord, hhas]
  · intro b
    obtain ⟨ai, pi⟩ := b
    cases ai with
    | none => simp [c5Messages, c5Checks]
    | some acc =>
    cases pi with
    | none => simp [c5Messages, c5Checks]
    | some pix =>
    show List.Nodup ([structureErrorMsg, "Nome é obrigatório", "CPF é obrigatório",
      "Banco é obrigatório", "Agência é obrigatória", "Conta é obrigatória",
      "Tipo de chave PIX é obrigatório", "Valor da chave PIX é obrigatório",
      "CPF do titular é inválido. Deve ter 11 dígitos.",
      "Tipo de chave PIX inválido. Use: email, phone, cpf, cnpj, uuid"] ++
      ["Valor da chave PIX (" ++ pix.type.getD "" ++ ") é inválido"])
    rw [List.nodup_append]
    refine ⟨by decide, List.nodup_singleton _, ?_⟩
    intro a ha hdyn
    simp only [List.mem_singleton] at hdyn
    subst hdyn
    simp only [List.mem_cons, List.not_mem_nil, or_false] at ha
    rcases ha with h | h | h | h | h | h | h | h | h | h
    · exact valor_dyn_ne_of_get0 _ _ (by decide) h
    · exact valor_dyn_ne_of_get0 _ _ (by decide) h
    · exact valor_dyn_ne_of_get0 _ _ (by decide) h
    · exact valor_dyn_ne_of_get0 _ _ (by decide) h
    · exact valor_dyn_ne_of_get0 _ _ (by decide) h
    · exact valor_dyn_ne_of_get0 _ _ (by decide) h
    · exact valor_dyn_ne_of_get0 _ _ (by decide) h
    · exact valor_dyn_ne_valor_required _ h
    · exact valor_dyn_ne_of_get0 _ _ (by decide) h
    · exact valor_dyn_ne_of_get0 _ _ (by decide) h

/-- C5 witness: a body missing `nome` gets the 400 of that check on the
empty store, which it leaves unchanged. -/
theorem C5_witness :
    register emptyStore
        ⟨some ⟨none, some "12345678901", some "B", some "1", some "2"⟩,
         some ⟨some "phone", some "11987654321"⟩⟩
      = (⟨400, RespBody.error "Nome é obrigatório"⟩, emptyStore) :=
  C5_validation_order.1
    ⟨some ⟨none, some "12345678901", some "B", some "1", some "2"⟩,
     some ⟨some "phone", some "11987654321"⟩⟩
    "Nome é obrigatório" (by decide) emptyStore

end PixExpress
